import Mathlib

/-!
Verification of the orchestration workflow of a multi-agent financial
question-answering assistant (classification → routing → analysis/retrieval →
report generation → quality evaluation → bounded retry loop).

The Python sources are shallowly embedded: pure string/dict manipulation is
translated to Lean functions; every call into an external capability (the LLM,
the LLM-judge, the ReAct agent executor, the vector store, json.loads) is a
parameter of the embedding, so theorems quantify over all capability
behaviours.  Machine integers are `Nat`, similarity scores are `ℚ`, exceptions
are `Except String`, Python `None`-able values are `Option`.
-/

/-- ASCII lower-casing of a string, modelling Python's `str.lower()` on the
alphabet relevant here (the keyword sets are lower-case ASCII plus Korean,
which `lower()` leaves unchanged). -/
def lowerStr (s : String) : String := ⟨s.data.map Char.toLower⟩

/-- `containsSub needle hay` decides whether `needle` occurs as a contiguous
sublist of `hay`; this is Python's `needle in hay` on strings. -/
def containsSub (needle : List Char) : List Char → Bool
  | [] => needle.isEmpty
  | c :: t => needle.isPrefixOf (c :: t) || containsSub needle t

/-- Python `needle in hay` for strings. -/
def strContains (hay needle : String) : Bool := containsSub needle.data hay.data

/-- Python `str.strip()`: drop whitespace from both ends (kernel-reducible,
unlike `String.trim`). -/
def pyStrip (s : String) : String :=
  ⟨((s.data.dropWhile Char.isWhitespace).reverse.dropWhile
      Char.isWhitespace).reverse⟩

/-! ## QualityEvaluator (src/agents/quality_evaluator.py)

`QualityEvaluator.evaluate_answer(question, answer)` returns a dict with keys
`status`, `score`, `failure_reason`; we embed it as a structure.  The LLM-judge
chain (`self.evaluation_chain.invoke`) is a capability parameter
`judge : String → String → Except String String` returning the response
content or raising.  To make the short-circuiting observable, the embedding
additionally returns how many times the error-keyword check and the judge were
invoked. -/

structure QualityResult where
  status : String
  score : Nat
  failure_reason : Option String
deriving Repr, DecidableEq

/-- The fixed multilingual error-keyword set of `evaluate_answer`. -/
def error_keywords : List String :=
  ["error", "failed", "could not", "unable to", "오류", "실패", "찾을 수 없"]

/-- `re.search(r'[1-5]', content)`: first digit 1–5 in the judge response,
defaulting to 0 when none occurs. -/
def extractScore (content : String) : Nat :=
  match content.data.find? (fun c => '1' ≤ c && c ≤ '5') with
  | some c => c.toNat - '0'.toNat
  | none => 0

/-- `QualityEvaluator.evaluate_answer`.  Returns the result together with
`(keyword_checks, judge_calls)` instrumentation counters.  The three ordered
checks: (1) empty (`not answer or len(answer.strip()) < 10`), (2) error
keyword (case-insensitive substring), (3) LLM-as-a-judge score vs threshold,
any judge exception resolving to a fail-safe `error` result. -/
def evaluate_answer (judge : String → String → Except String String)
    (threshold : Nat) (question answer : String) :
    QualityResult × Nat × Nat :=
  if answer = "" ∨ (pyStrip answer).length < 10 then
    (⟨"fail", 0, some "empty"⟩, 0, 0)
  else if error_keywords.any (fun k => strContains (lowerStr answer) k) then
    (⟨"fail", 0, some "error"⟩, 1, 0)
  else
    match judge question answer with
    | .error _ => (⟨"fail", 0, some "error"⟩, 1, 1)
    | .ok content =>
      let score := extractScore content
      if threshold ≤ score then (⟨"pass", score, none⟩, 1, 1)
      else (⟨"fail", score, some "incorrect"⟩, 1, 1)

/-- The QualityResult part of `evaluate_answer` (first component, without the
instrumentation counters). -/
def evalResult (judge : String → String → Except String String)
    (threshold : Nat) (question answer : String) : QualityResult :=
  (evaluate_answer judge threshold question answer).1

/-- **C3.** An answer that is empty or whose trimmed length is below 10
fails terminally with reason `empty` and score 0: for every question, every
judge capability and every threshold, neither the error-keyword check nor the
judge is invoked (both counters are 0). -/
theorem C3_empty_short_circuit
    (judge : String → String → Except String String) (threshold : Nat)
    (question answer : String)
    (h : answer = "" ∨ (pyStrip answer).length < 10) :
    evaluate_answer judge threshold question answer =
      (⟨"fail", 0, some "empty"⟩, 0, 0) := by
  unfold evaluate_answer
  rw [if_pos h]

/-- Witness for C3 at a concrete input: the answer `"error!"` is shorter than
10 characters, and even though it contains the error keyword `error`, the
result is the `empty` failure and both the keyword check and the judge run
zero times. -/
theorem C3_empty_short_circuit_witness :
    ("error!" = "" ∨ (pyStrip "error!").length < 10) ∧
    evaluate_answer (fun _ _ => .ok "5") 2 "나스닥이 뭐야?" "error!" =
      (⟨"fail", 0, some "empty"⟩, 0, 0) :=
  ⟨Or.inr (by decide),
    C3_empty_short_circuit _ 2 "나스닥이 뭐야?" "error!" (Or.inr (by decide))⟩

/-- **C4.** An answer of trimmed length ≥ 10 containing (case-insensitively)
one of the fixed error keywords fails terminally with reason `error` and
score 0, without invoking the judge (judge counter 0; the keyword check ran
once). -/
theorem C4_error_keyword_precedence
    (judge : String → String → Except String String) (threshold : Nat)
    (question answer : String)
    (h10 : 10 ≤ (pyStrip answer).length)
    (hkw : error_keywords.any (fun k => strContains (lowerStr answer) k) = true) :
    evaluate_answer judge threshold question answer =
      (⟨"fail", 0, some "error"⟩, 1, 0) := by
  unfold evaluate_answer
  rw [if_neg, if_pos hkw]
  rintro (rfl | hshort)
  · exact absurd h10 (by decide)
  · omega

/-- Witness for C4: the ≥10-character answer `"오류가 발생했습니다"` contains
the keyword `오류`, so the result is the `error` failure and the judge is
never called. -/
theorem C4_error_keyword_precedence_witness :
    10 ≤ (pyStrip "오류가 발생했습니다").length ∧
    (error_keywords.any
      (fun k => strContains (lowerStr "오류가 발생했습니다") k) = true) ∧
    evaluate_answer (fun _ _ => .ok "5") 2 "나스닥이 뭐야?" "오류가 발생했습니다" =
      (⟨"fail", 0, some "error"⟩, 1, 0) :=
  ⟨by decide, by decide,
    C4_error_keyword_precedence _ 2 _ _ (by decide) (by decide)⟩

/-- The QualityResult invariant of the data model: `status` is `pass` or
`fail`; `status = fail` iff `failure_reason` is set; a set `failure_reason`
is one of `empty`/`error`/`incorrect`; `status = pass` implies
`score ≥ threshold`. -/
def qrInvariant (threshold : Nat) (r : QualityResult) : Prop :=
  (r.status = "pass" ∨ r.status = "fail") ∧
  (r.status = "fail" ↔ r.failure_reason ≠ none) ∧
  (∀ fr, r.failure_reason = some fr →
    fr = "empty" ∨ fr = "error" ∨ fr = "incorrect") ∧
  (r.status = "pass" → threshold ≤ r.score)

lemma qrInv_fail (threshold sc : Nat) (fr : String)
    (hfr : fr = "empty" ∨ fr = "error" ∨ fr = "incorrect") :
    qrInvariant threshold ⟨"fail", sc, some fr⟩ :=
  ⟨Or.inr rfl, ⟨fun _ h => Option.noConfusion h, fun _ => rfl⟩,
    fun fr' h => by injection h with h; exact h ▸ hfr,
    fun h => absurd h (by show ("fail" : String) ≠ "pass"; decide)⟩

lemma qrInv_pass (threshold sc : Nat) (hsc : threshold ≤ sc) :
    qrInvariant threshold ⟨"pass", sc, none⟩ :=
  ⟨Or.inl rfl,
    ⟨fun h => absurd h (by show ("pass" : String) ≠ "fail"; decide),
      fun h => absurd rfl h⟩,
    fun _ h => Option.noConfusion h, fun _ => hsc⟩

/-- **C5.** Every result of `evaluate_answer` — for any question, answer,
judge behaviour and threshold — satisfies the QualityResult invariant
`qrInvariant`: `status` is `pass` or `fail`; `status = fail` iff
`failure_reason` is set; a set `failure_reason` is one of
`empty`/`error`/`incorrect`; and `status = pass` implies
`score ≥ threshold`. -/
theorem C5_quality_result_invariant
    (judge : String → String → Except String String) (threshold : Nat)
    (question answer : String) :
    qrInvariant threshold (evalResult judge threshold question answer) := by
  unfold evalResult evaluate_answer
  split
  · exact qrInv_fail _ _ _ (Or.inl rfl)
  · split
    · exact qrInv_fail _ _ _ (Or.inr (Or.inl rfl))
    · rcases judge question answer with e | content
      · exact qrInv_fail _ _ _ (Or.inr (Or.inl rfl))
      · show qrInvariant threshold
          ((if threshold ≤ extractScore content then
              ((⟨"pass", extractScore content, none⟩ : QualityResult), 1, 1)
            else
              ((⟨"fail", extractScore content, some "incorrect"⟩ : QualityResult),
                1, 1)).1)
        split_ifs with hth
        · exact qrInv_pass _ _ hth
        · exact qrInv_fail _ _ _ (Or.inr (Or.inr rfl))

/-- Witness for C5: the invariant at a concrete judge (answering "4"),
threshold 2 and a substantive answer. -/
theorem C5_quality_result_invariant_witness :
    qrInvariant 2 (evalResult (fun _ _ => .ok "4") 2 "애플 주가?"
      "애플의 현재 주가는 221달러입니다.") :=
  C5_quality_result_invariant (fun _ _ => .ok "4") 2 "애플 주가?"
    "애플의 현재 주가는 221달러입니다."

/-! ## Retriever (src/rag/retriever.py, src/rag/vector_store.py)

`VectorStore.retrieve_with_scores` delegates to the Chroma nearest-neighbour
search (`similarity_search_with_relevance_scores`), an external capability
modelled as `store : String → Nat → List (Doc × ℚ)` (query, k ↦ scored
candidates).  `Retriever.retrieve` filters the candidates by the similarity
threshold with a list comprehension, preserving candidate order. -/

/-- A langchain `Document` restricted to the fields this repository reads
(`page_content`, `metadata['source']`, `metadata['page']`). -/
structure Doc where
  page_content : String
  source : String
  page : String
deriving Repr, DecidableEq

/-- `Retriever.retrieve(query, k, threshold)`:
`[(doc, score) for doc, score in candidates if score >= min_threshold]`. -/
def retrieve (store : String → Nat → List (Doc × ℚ))
    (query : String) (top_k : Nat) (min_threshold : ℚ) : List (Doc × ℚ) :=
  (store query top_k).filter (fun p => min_threshold ≤ p.2)

/-! ## RewriteStage and ClassificationGate (src/agents/request_analyst.py) -/

/-- Return value of `rewrite_query`. -/
structure RewriteResult where
  rewritten_query : String
  needs_user_input : Bool
  user_question : Option String
deriving Repr, DecidableEq

/-- The clarification question returned by `rewrite_query` for too-short
queries. -/
def userQuestionMsg : String :=
  "질문을 좀 더 구체적으로 말씀해 주시겠어요? 어떤 정보를 원하시나요?"

/-- `rewrite_query(original_query, failure_reason)`: queries of trimmed
length < 5 request user input; otherwise the original query is returned
unchanged for a retry.  (`failure_reason` and the LLM are never consulted by
the implementation.) -/
def rewrite_query (original_query : String) (failure_reason : String) :
    RewriteResult :=
  if (pyStrip original_query).length < 5 then
    ⟨original_query, true, some userQuestionMsg⟩
  else
    ⟨original_query, false, none⟩

/-- The pydantic structured-output schema of the classifier: a single
unconstrained string field `label`. -/
structure FinanceGate where
  label : String
deriving Repr, DecidableEq

/-- Return value of `request_analysis`: `label`, plus the optional
`generate` message set for non-finance questions. -/
structure ReqAnalysisResult where
  label : String
  generate : Option String
deriving Repr, DecidableEq

/-- `Config.NOT_FINANCE_RESPONSE`. -/
def NOT_FINANCE_RESPONSE : String :=
  "저는 경제, 금융관련 정보를 통해 전문적으로 사용자의 요청을 도와드리는 AI입니다!\n주식, 환율, 기업 분석 등 금융 관련 질문을 해주시면 답변 도와 드릴게요 😄"

/-- `request_analysis(state)`: the structured-output chain invocation is the
parameter (it may raise, and `request_analysis` has no try/except, so the
error propagates).  A parsed label equal to `"not_finance"` yields the
not-finance result; every other parsed label is returned as `"finance"`. -/
def request_analysis (structuredResp : Except String FinanceGate) :
    Except String ReqAnalysisResult :=
  match structuredResp with
  | .error e => .error e
  | .ok result =>
    if result.label = "not_finance" then
      .ok ⟨"not_finance", some NOT_FINANCE_RESPONSE⟩
    else
      .ok ⟨"finance", none⟩

/-! ## Workflow engine (src/workflow/workflow.py)

The LangGraph graph: entry node `request_analyst`, conditional edges as wired
in `_build_graph`.  Node callbacks mutate the state dict in place and return
it; the embedding threads the state explicitly.  LLM-backed stages are
capability parameters collected in `WEnv`; stages whose implementation never
raises past its boundary (`FinancialAnalyst.analyze`,
`ReportGenerator.generate_report`, `QualityEvaluator.evaluate_answer`) are
total, the two structured-output chains (classifier, supervisor) may raise. -/

/-- `analysis_data` as seen by the workflow: either the record built inline
by the RAG branch of `report_generator_node`, or an opaque key/value payload
produced by the financial analyst.  `truthy` is Python truthiness of the
dict (`if not analysis_data`). -/
inductive WAData where
  | ragData (query : String) (documents : List String)
  | extData (d : List (String × String))
deriving Repr, DecidableEq

def WAData.truthy : WAData → Bool
  | .ragData _ _ => true
  | .extData d => !d.isEmpty

/-- The dict returned by `ReportGenerator.generate_report` as read by the
workflow (`report.get("report", ...)`). -/
structure WReport where
  report : Option String
deriving Repr, DecidableEq

/-- The external capabilities consumed by the workflow nodes. -/
structure WEnv where
  classify : String → Except String FinanceGate
  supervise : String → Except String String
  analyze : String → WAData
  store : String → Nat → List (Doc × ℚ)
  generateReport : String → WAData → WReport
  evalAnswer : String → String → QualityResult

/-- `WorkflowState` (the TypedDict), with absent keys as `none`. -/
structure WState where
  question : String
  answer : Option String := none
  route : Option String := none
  request_type : Option String := none
  rag_search_results : List String := []
  analysis_data : Option WAData := none
  quality_passed : Option Bool := none
  quality_detail : Option QualityResult := none
  retries : Option Nat := none
deriving Repr, DecidableEq

def emptyQuestionMsg : String := "질문이 비어 있어 답변을 드릴 수 없습니다."
def notFinanceDefaultMsg : String := "경제, 금융관련 질문이 아닙니다."
def noAgentMsg : String := "적합한 에이전트를 찾을 수 없습니다. 그래프를 종료합니다."
def noAnalysisDataMsg : String := "분석 데이터(analysis_data)를 찾을 수 없습니다."
def reportFallbackMsg : String := "보고서를 생성하지 못했습니다."
def retryMsg : String := "질문을 다시 정제했습니다. 재시도합니다."
def clarifyDefaultMsg : String := "질문을 좀 더 구체적으로 말씀해 주시겠어요? "
def exhaustMsg : String :=
  "3회 재시도에도 품질 기준을 충족하지 못했습니다. 답변을 종료합니다."

/-- `Workflow.request_analyst_node`.  An empty (trimmed) question
short-circuits to `end`; otherwise the classifier result routes to the
supervisor for `finance` and to `end` otherwise.  The non-finance answer is
`analysis_result.get("return_msg", "경제, 금융관련 질문이 아닙니다.")`, and
`request_analysis` never sets a `return_msg` key (it sets `generate`), so
the default literal is always used. -/
def request_analyst_node (env : WEnv) (s : WState) : Except String WState :=
  if pyStrip s.question = "" then
    .ok { s with answer := some emptyQuestionMsg, route := some "end" }
  else
    match request_analysis (env.classify s.question) with
    | .error e => .error e
    | .ok ar =>
      if ar.label = "finance" then
        .ok { s with route := some "supervisor" }
      else
        .ok { s with answer := some notFinanceDefaultMsg, route := some "end" }

/-- `Workflow.supervisor_node`: the supervisor agent (a structured-output
chain returning the `agent` field, which may raise) selects the next node. -/
def supervisor_node (env : WEnv) (s : WState) : Except String WState :=
  match env.supervise s.question with
  | .error e => .error e
  | .ok agent_choice =>
    if agent_choice = "financial_analyst" then
      .ok { s with route := some "financial_analyst" }
    else if agent_choice = "vector_search_agent" then
      .ok { s with route := some "report_generator", request_type := some "rag" }
    else
      .ok { s with answer := some noAgentMsg, route := some "end" }

/-- `Workflow.financial_analyst_node`. -/
def financial_analyst_node (env : WEnv) (s : WState) : WState :=
  { s with analysis_data := some (env.analyze s.question),
           request_type := some "financial_analyst" }

/-- `- (score=..) source p.page` display line of the RAG branch.  The
two-decimal float rendering is abstracted to Lean's rational rendering; no
workflow consumer reads these display strings. -/
def ragLine (p : Doc × ℚ) : String :=
  "- (score=" ++ toString p.2 ++ ") " ++ p.1.source ++ " p." ++ p.1.page

/-- `Workflow.report_generator_node`.  The RAG branch retrieves documents
with the `Retriever` defaults (`k = DEFAULT_RETRIEVAL_TOP_K = 3`,
`threshold = RETRIEVAL_THRESHOLD = 0.3`) and builds the `rag`-tagged
analysis record; the analyst branch requires a truthy `analysis_data`. -/
def report_generator_node (env : WEnv) (s : WState) : WState :=
  if s.request_type.getD "rag" = "rag" then
    let results := retrieve env.store s.question 3 (3/10)
    let analysis_data := WAData.ragData s.question
      (results.map (fun p => p.1.page_content))
    { s with rag_search_results := results.map ragLine,
             analysis_data := some analysis_data,
             answer := some ((env.generateReport s.question
               analysis_data).report.getD reportFallbackMsg) }
  else
    match s.analysis_data with
    | none => { s with answer := some noAnalysisDataMsg }
    | some analysis_data =>
      if analysis_data.truthy then
        { s with answer := some ((env.generateReport s.question
            analysis_data).report.getD reportFallbackMsg) }
      else
        { s with answer := some noAnalysisDataMsg }

/-- `Workflow.quality_evaluator_node`.  On failure the retry counter is
incremented and `rewrite_query` consulted; the needs-user-input branch reads
`rewrite_result.get("request_for_detail_msg", ...)`, a key `rewrite_query`
never sets (it sets `user_question`), so the default clarification literal
is always used.  On pass the counter resets to 0. -/
def quality_evaluator_node (env : WEnv) (s : WState) : WState :=
  let result := env.evalAnswer s.question (s.answer.getD "")
  let s1 := { s with quality_detail := some result,
                     quality_passed := some (result.status = "pass") }
  if result.status = "pass" then
    { s1 with retries := some 0 }
  else
    let retries1 := s1.retries.getD 0 + 1
    let rewrite_result :=
      rewrite_query s.question (result.failure_reason.getD "incorrect")
    if rewrite_result.needs_user_input then
      { s1 with retries := some retries1,
                answer := some clarifyDefaultMsg,
                route := some "end" }
    else
      { s1 with retries := some retries1,
                question := rewrite_result.rewritten_query,
                answer := some retryMsg }

/-- `Workflow._route_from_request_analyst`. -/
def route_from_request_analyst (s : WState) : String :=
  if s.route = some "end" then "end" else "supervisor"

/-- `Workflow._route_from_supervisor`. -/
def route_from_supervisor (s : WState) : String :=
  s.route.getD "financial_analyst"

/-- `Workflow._route_from_quality_evaluator`.  Quality pass ends
immediately; otherwise fewer than 3 retries loops back, and from the third
retry on the loop is forced to end with the exhaustion answer (the routing
callback assigns `state["answer"]` in place before returning `"end"`; the
mutation is threaded through the returned state). -/
def route_from_quality_evaluator (s : WState) : String × WState :=
  if s.quality_passed.getD false then
    ("end", s)
  else if s.retries.getD 0 < 3 then
    ("retry", s)
  else
    ("end", { s with answer := some exhaustMsg })

/-- The graph's node set (plus the `END` terminal). -/
inductive WNode where
  | request_analyst
  | supervisorN
  | financial_analystN
  | report_generatorN
  | quality_evaluatorN
  | terminal
deriving Repr, DecidableEq

/-- One transition of the compiled graph: run the node callback, then follow
the (conditional) edge wired in `_build_graph`.  A supervisor edge label
outside the registered mapping would be a LangGraph error. -/
def wstep (env : WEnv) : WNode → WState → Except String (WNode × WState)
  | .request_analyst, s =>
    match request_analyst_node env s with
    | .error e => .error e
    | .ok s' =>
      if route_from_request_analyst s' = "end" then .ok (.terminal, s')
      else .ok (.supervisorN, s')
  | .supervisorN, s =>
    match supervisor_node env s with
    | .error e => .error e
    | .ok s' =>
      if route_from_supervisor s' = "financial_analyst" then
        .ok (.financial_analystN, s')
      else if route_from_supervisor s' = "report_generator" then
        .ok (.report_generatorN, s')
      else if route_from_supervisor s' = "end" then
        .ok (.terminal, s')
      else
        .error "unknown conditional edge label"
  | .financial_analystN, s => .ok (.report_generatorN, financial_analyst_node env s)
  | .report_generatorN, s => .ok (.quality_evaluatorN, report_generator_node env s)
  | .quality_evaluatorN, s =>
    let (label, s') := route_from_quality_evaluator (quality_evaluator_node env s)
    if label = "retry" then .ok (.request_analyst, s')
    else .ok (.terminal, s')
  | .terminal, s => .ok (.terminal, s)

/-- `Workflow.run`, fuel-bounded: iterate `wstep` from the entry point,
stopping at the terminal node, and count visits to the quality evaluator
(= completed analysis+report+quality cycles). -/
def wrun (env : WEnv) (fuel : Nat) (n : WNode) (s : WState) (c : Nat) :
    Except String (WNode × WState × Nat) :=
  match fuel with
  | 0 => .ok (n, s, c)
  | fuel + 1 =>
    if n = .terminal then .ok (n, s, c)
    else
      match wstep env n s with
      | .error e => .error e
      | .ok (n', s') =>
        wrun env fuel n' s' (if n = .quality_evaluatorN then c + 1 else c)

/-- The fresh state of `Workflow.run(question)`. -/
def initState (q : String) : WState := { question := q }

lemma wrun_terminal (env : WEnv) (fuel : Nat) (s : WState) (c : Nat) :
    wrun env fuel .terminal s c = .ok (.terminal, s, c) := by
  cases fuel <;> simp [wrun]

lemma wrun_cons (env : WEnv) (fuel : Nat) (n : WNode) (s : WState) (c : Nat)
    (n' : WNode) (s' : WState) (r : Except String (WNode × WState × Nat))
    (hn : ¬ n = .terminal)
    (hstep : wstep env n s = .ok (n', s'))
    (hrest : wrun env fuel n' s'
      (if n = .quality_evaluatorN then c + 1 else c) = r) :
    wrun env (fuel + 1) n s c = r := by
  rw [← hrest]
  simp only [wrun]
  rw [if_neg hn, hstep]

lemma wstep_financial (env : WEnv) (s : WState) :
    wstep env .financial_analystN s =
      .ok (.report_generatorN, financial_analyst_node env s) := rfl

lemma wstep_report (env : WEnv) (s : WState) :
    wstep env .report_generatorN s =
      .ok (.quality_evaluatorN, report_generator_node env s) := rfl

lemma request_node_finance (env : WEnv) (s : WState)
    (hq : ¬ pyStrip s.question = "")
    (hcls : env.classify s.question = .ok ⟨"finance"⟩) :
    request_analyst_node env s = .ok { s with route := some "supervisor" } := by
  unfold request_analyst_node request_analysis
  rw [if_neg hq, hcls]
  simp

lemma wstep_request_finance (env : WEnv) (s : WState)
    (hq : ¬ pyStrip s.question = "")
    (hcls : env.classify s.question = .ok ⟨"finance"⟩) :
    wstep env .request_analyst s =
      .ok (.supervisorN, { s with route := some "supervisor" }) := by
  simp only [wstep, request_node_finance env s hq hcls]
  simp [route_from_request_analyst]

lemma wstep_supervisor_financial (env : WEnv) (s : WState)
    (hsup : env.supervise s.question = .ok "financial_analyst") :
    wstep env .supervisorN s =
      .ok (.financial_analystN, { s with route := some "financial_analyst" }) := by
  simp only [wstep, supervisor_node, hsup]
  simp [route_from_supervisor]

lemma rewrite_query_rewritten (oq fr : String) :
    (rewrite_query oq fr).rewritten_query = oq := by
  unfold rewrite_query
  split <;> rfl

lemma quality_node_fail (env : WEnv)
    (hfail : ∀ q a, (env.evalAnswer q a).status = "fail") (s : WState) :
    (quality_evaluator_node env s).retries = some (s.retries.getD 0 + 1) ∧
    (quality_evaluator_node env s).question = s.question ∧
    (quality_evaluator_node env s).quality_passed = some false := by
  unfold quality_evaluator_node
  simp only [hfail, rewrite_query_rewritten]
  rw [if_neg (by decide : ¬("fail" : String) = "pass")]
  split <;> exact ⟨rfl, rfl, rfl⟩

lemma wstep_quality_retry (env : WEnv) (s : WState)
    (hfail : ∀ q a, (env.evalAnswer q a).status = "fail")
    (hr : s.retries.getD 0 + 1 < 3) :
    wstep env .quality_evaluatorN s =
      .ok (.request_analyst, quality_evaluator_node env s) := by
  obtain ⟨h1, _, h3⟩ := quality_node_fail env hfail s
  simp only [wstep, route_from_quality_evaluator, h1, h3]
  simp [hr]

lemma wstep_quality_end (env : WEnv) (s : WState)
    (hfail : ∀ q a, (env.evalAnswer q a).status = "fail")
    (hr : ¬ s.retries.getD 0 + 1 < 3) :
    wstep env .quality_evaluatorN s =
      .ok (.terminal,
        { quality_evaluator_node env s with answer := some exhaustMsg }) := by
  obtain ⟨h1, _, h3⟩ := quality_node_fail env hfail s
  simp only [wstep, route_from_quality_evaluator, h1, h3]
  simp [hr]

lemma financial_node_retries (env : WEnv) (s : WState) :
    (financial_analyst_node env s).retries = s.retries := rfl

lemma financial_node_question (env : WEnv) (s : WState) :
    (financial_analyst_node env s).question = s.question := rfl

lemma report_node_retries (env : WEnv) (s : WState) :
    (report_generator_node env s).retries = s.retries := by
  unfold report_generator_node
  split
  · rfl
  · split
    · rfl
    · split <;> rfl

lemma report_node_question (env : WEnv) (s : WState) :
    (report_generator_node env s).question = s.question := by
  unfold report_generator_node
  split
  · rfl
  · split
    · rfl
    · split <;> rfl

lemma request_node_retries (env : WEnv) (s s' : WState)
    (h : request_analyst_node env s = .ok s') : s'.retries = s.retries := by
  unfold request_analyst_node at h
  split at h
  · injection h with h
    subst h
    rfl
  · rcases hra : request_analysis (env.classify s.question) with e | ar
    · simp only [hra] at h
      exact Except.noConfusion h
    · simp only [hra] at h
      split_ifs at h <;> (injection h with h; subst h; rfl)

lemma supervisor_node_retries (env : WEnv) (s s' : WState)
    (h : supervisor_node env s = .ok s') : s'.retries = s.retries := by
  unfold supervisor_node at h
  rcases hsu : env.supervise s.question with e | a
  · simp only [hsu] at h
    exact Except.noConfusion h
  · simp only [hsu] at h
    split_ifs at h <;> (injection h with h; subst h; rfl)

/-- **C1.** Under a quality evaluator that fails every evaluation (and a
classifier/supervisor that admit the question into the analysis pipeline,
i.e. the run actually reaches the retry loop): the `retries` counter is
untouched by the classification, supervision, analysis and report nodes and
incremented by exactly 1 by each (failed) quality evaluation; whenever
`retries ≥ 3` the quality router returns `end` regardless of the quality
outcome, installing the fixed exhaustion answer on the failure side; and the
run terminates with `retries = 3` (never 4), final answer the exhaustion
message, after exactly 3 (hence at most 4) analysis+report+quality cycles. -/
theorem C1_retry_bound (env : WEnv) (q : String)
    (hfail : ∀ qq a, (env.evalAnswer qq a).status = "fail")
    (hq : ¬ pyStrip q = "")
    (hcls : env.classify q = .ok ⟨"finance"⟩)
    (hsup : env.supervise q = .ok "financial_analyst") :
    (∀ s s', request_analyst_node env s = .ok s' → s'.retries = s.retries) ∧
    (∀ s s', supervisor_node env s = .ok s' → s'.retries = s.retries) ∧
    (∀ s, (financial_analyst_node env s).retries = s.retries) ∧
    (∀ s, (report_generator_node env s).retries = s.retries) ∧
    (∀ s, (quality_evaluator_node env s).retries = some (s.retries.getD 0 + 1)) ∧
    (∀ s, 3 ≤ s.retries.getD 0 →
      (route_from_quality_evaluator s).1 = "end" ∧
      (s.quality_passed.getD false = false →
        route_from_quality_evaluator s = ("end", { s with answer := some exhaustMsg }))) ∧
    (∃ sF, wrun env 20 .request_analyst (initState q) 0 = .ok (.terminal, sF, 3) ∧
      sF.retries = some 3 ∧ sF.answer = some exhaustMsg ∧ 3 ≤ 4) := by
  have hAq : ∀ s : WState,
      (report_generator_node env (financial_analyst_node env
        { s with route := some "financial_analyst" })).question = s.question := by
    intro s
    rw [report_node_question, financial_node_question]
  have hAr : ∀ s : WState,
      (report_generator_node env (financial_analyst_node env
        { s with route := some "financial_analyst" })).retries = s.retries := by
    intro s
    rw [report_node_retries, financial_node_retries]
  have cycle : ∀ (s : WState) (c fuel : Nat), s.question = q →
      wrun env (fuel + 4) .request_analyst s c =
        wrun env fuel .quality_evaluatorN
          (report_generator_node env (financial_analyst_node env
            { s with route := some "financial_analyst" })) c := by
    intro s c fuel hs
    refine wrun_cons env (fuel + 3) _ _ _ _ _ _ (by decide)
      (wstep_request_finance env s (by rw [hs]; exact hq) (by rw [hs]; exact hcls)) ?_
    refine wrun_cons env (fuel + 2) _ _ _ _ _ _ (by decide)
      (wstep_supervisor_financial env _
        (by show env.supervise s.question = _; rw [hs]; exact hsup)) ?_
    refine wrun_cons env (fuel + 1) _ _ _ _ _ _ (by decide)
      (wstep_financial env _) ?_
    refine wrun_cons env fuel _ _ _ _ _ _ (by decide)
      (wstep_report env _) ?_
    rfl
  have qretry : ∀ (s : WState) (c fuel : Nat), s.retries.getD 0 + 1 < 3 →
      wrun env (fuel + 1) .quality_evaluatorN s c =
        wrun env fuel .request_analyst (quality_evaluator_node env s) (c + 1) :=
    fun s c fuel hr =>
      wrun_cons env fuel _ _ _ _ _ _ (by decide)
        (wstep_quality_retry env s hfail hr) rfl
  have qend : ∀ (s : WState) (c fuel : Nat), ¬ s.retries.getD 0 + 1 < 3 →
      wrun env (fuel + 1) .quality_evaluatorN s c =
        .ok (.terminal,
          { quality_evaluator_node env s with answer := some exhaustMsg }, c + 1) :=
    fun s c fuel hr =>
      wrun_cons env fuel _ _ _ _ _ _ (by decide)
        (wstep_quality_end env s hfail hr) (wrun_terminal env fuel _ _)
  refine ⟨request_node_retries env, supervisor_node_retries env,
    financial_node_retries env, report_node_retries env,
    fun s => (quality_node_fail env hfail s).1, ?_, ?_⟩
  · intro s h3
    unfold route_from_quality_evaluator
    split_ifs with h1 h2
    · exact ⟨rfl, fun hp => by rw [h1] at hp; cases hp⟩
    · omega
    · exact ⟨rfl, fun _ => rfl⟩
  · -- the 3-cycle run itself
    have ht1r : (report_generator_node env (financial_analyst_node env
        { initState q with route := some "financial_analyst" })).retries = none :=
      hAr (initState q)
    have hu1 := quality_node_fail env hfail
      (report_generator_node env (financial_analyst_node env
        { initState q with route := some "financial_analyst" }))
    have hrun :=
      calc wrun env 20 .request_analyst (initState q) 0
          = wrun env 16 .quality_evaluatorN
              (report_generator_node env (financial_analyst_node env
                { initState q with route := some "financial_analyst" })) 0 :=
            cycle (initState q) 0 16 rfl
        _ = wrun env 15 .request_analyst
              (quality_evaluator_node env
                (report_generator_node env (financial_analyst_node env
                  { initState q with route := some "financial_analyst" }))) 1 :=
            qretry _ 0 15 (by rw [ht1r]; decide)
        _ = wrun env 11 .quality_evaluatorN
              (report_generator_node env (financial_analyst_node env
                { quality_evaluator_node env
                    (report_generator_node env (financial_analyst_node env
                      { initState q with route := some "financial_analyst" }))
                  with route := some "financial_analyst" })) 1 :=
            cycle _ 1 11 (by rw [hu1.2.1, hAq]; rfl)
        _ = wrun env 10 .request_analyst
              (quality_evaluator_node env
                (report_generator_node env (financial_analyst_node env
                  { quality_evaluator_node env
                      (report_generator_node env (financial_analyst_node env
                        { initState q with route := some "financial_analyst" }))
                    with route := some "financial_analyst" }))) 2 :=
            qretry _ 1 10 (by rw [hAr, hu1.1, ht1r]; decide)
        _ = wrun env 6 .quality_evaluatorN
              (report_generator_node env (financial_analyst_node env
                { quality_evaluator_node env
                    (report_generator_node env (financial_analyst_node env
                      { quality_evaluator_node env
                          (report_generator_node env (financial_analyst_node env
                            { initState q with route := some "financial_analyst" }))
                        with route := some "financial_analyst" }))
                  with route := some "financial_analyst" })) 2 :=
            cycle _ 2 6 (by
              rw [(quality_node_fail env hfail _).2.1, hAq, hu1.2.1, hAq]
              rfl)
        _ = .ok (.terminal,
              { quality_evaluator_node env
                  (report_generator_node env (financial_analyst_node env
                    { quality_evaluator_node env
                        (report_generator_node env (financial_analyst_node env
                          { quality_evaluator_node env
                              (report_generator_node env (financial_analyst_node env
                                { initState q with route := some "financial_analyst" }))
                            with route := some "financial_analyst" }))
                      with route := some "financial_analyst" }))
                with answer := some exhaustMsg }, 3) :=
            qend _ 2 5 (by
              rw [hAr, (quality_node_fail env hfail _).1, hAr, hu1.1, ht1r]
              decide)
    refine ⟨_, hrun, ?_, rfl, by omega⟩
    show (quality_evaluator_node env _).retries = some 3
    rw [(quality_node_fail env hfail _).1, hAr, (quality_node_fail env hfail _).1,
      hAr, hu1.1, ht1r]
    rfl

/-- A concrete environment whose quality evaluator fails every answer with
reason `incorrect` and whose classifier/supervisor admit every question into
the analysis pipeline. -/
def envAlwaysFail : WEnv where
  classify := fun _ => .ok ⟨"finance"⟩
  supervise := fun _ => .ok "financial_analyst"
  analyze := fun _ => .extData [("analysis_type", "single")]
  store := fun _ _ => []
  generateReport := fun _ _ => ⟨some "데모 분석 보고서입니다."⟩
  evalAnswer := fun _ _ => ⟨"fail", 1, some "incorrect"⟩

/-- Witness for C1: running `envAlwaysFail` on a concrete question
terminates at the terminal node with `retries = 3`, the exhaustion answer,
and exactly 3 quality cycles. -/
theorem C1_retry_bound_witness :
    (∀ qq a, (envAlwaysFail.evalAnswer qq a).status = "fail") ∧
    (¬ pyStrip "애플 주식 분석해줘" = "") ∧
    envAlwaysFail.classify "애플 주식 분석해줘" = .ok ⟨"finance"⟩ ∧
    envAlwaysFail.supervise "애플 주식 분석해줘" = .ok "financial_analyst" ∧
    (∃ sF, wrun envAlwaysFail 20 .request_analyst
        (initState "애플 주식 분석해줘") 0 = .ok (.terminal, sF, 3) ∧
      sF.retries = some 3 ∧ sF.answer = some exhaustMsg ∧ 3 ≤ 4) :=
  ⟨fun _ _ => rfl, by decide, rfl, rfl,
    (C1_retry_bound envAlwaysFail "애플 주식 분석해줘"
      (fun _ _ => rfl) (by decide) rfl rfl).2.2.2.2.2.2⟩

/-- **C2 (divergence witness).**  For the 2-character query `"주식"` (trimmed
length < 5) under an always-failing quality gate: `rewrite_query` does
return `needs_user_input = true`, and `quality_evaluator_node` does set the
clarification answer and `route = "end"` — but after 5 engine steps the run
is back at the classification node (`request_analyst`) because
`_route_from_quality_evaluator` ignores `state["route"]` and returns
`"retry"` while `retries < 3`; the run then terminates only by retry
exhaustion, with the exhaustion answer overwriting the clarification. -/
theorem C2_needs_user_input_still_loops :
    (rewrite_query "주식" "incorrect").needs_user_input = true ∧
    (rewrite_query "주식" "incorrect").user_question = some userQuestionMsg ∧
    (∃ s5 : WState,
      wrun envAlwaysFail 5 .request_analyst (initState "주식") 0 =
        .ok (.request_analyst, s5, 1) ∧
      s5.route = some "end" ∧ s5.answer = some clarifyDefaultMsg) ∧
    (∃ sF : WState,
      wrun envAlwaysFail 20 .request_analyst (initState "주식") 0 =
        .ok (.terminal, sF, 3) ∧
      sF.answer = some exhaustMsg ∧ sF.retries = some 3 ∧
      sF.answer ≠ some clarifyDefaultMsg) :=
  ⟨rfl, rfl, ⟨_, rfl, rfl, rfl⟩, ⟨_, rfl, rfl, rfl, by decide⟩⟩

/-- A concrete environment whose classifier parses successfully but with a
label outside the `{finance, not_finance}` schema. -/
def envBadLabel : WEnv where
  classify := fun _ => .ok ⟨"maybe"⟩
  supervise := fun _ => .ok "financial_analyst"
  analyze := fun _ => .extData [("analysis_type", "single")]
  store := fun _ _ => []
  generateReport := fun _ _ => ⟨some "r"⟩
  evalAnswer := fun _ _ => ⟨"pass", 5, none⟩

/-- **C9 (counterexample).**  A structured classifier response that parses
but does not conform to the two-label schema (`label = "maybe"`) is *not* a
hard error: `request_analysis` falls back to `"finance"` and the engine
routes to the supervisor. -/
theorem C9_counterexample_nonconforming_label_routes :
    request_analysis (.ok ⟨"maybe"⟩) = .ok ⟨"finance", none⟩ ∧
    wstep envBadLabel .request_analyst (initState "증권이 뭐야?") =
      .ok (.supervisorN,
        { initState "증권이 뭐야?" with route := some "supervisor" }) :=
  ⟨rfl, rfl⟩

/-- **C9 (amended).**  An *unparseable* structured classifier response (the
chain raises) propagates as a hard failure of the whole run, with no
fallback label; but a response that parses is only compared against
`"not_finance"`: that exact label yields the not-finance result, and every
other parsed label — conforming or not — is treated as `"finance"`. -/
theorem C9_classification_error_propagation :
    (∀ (env : WEnv) (q e : String) (fuel : Nat),
      ¬ pyStrip q = "" → env.classify q = .error e →
      wrun env (fuel + 1) .request_analyst (initState q) 0 = .error e) ∧
    (∀ resp : FinanceGate, resp.label ≠ "not_finance" →
      request_analysis (.ok resp) = .ok ⟨"finance", none⟩) ∧
    (∀ resp : FinanceGate, resp.label = "not_finance" →
      request_analysis (.ok resp) =
        .ok ⟨"not_finance", some NOT_FINANCE_RESPONSE⟩) := by
  refine ⟨?_, ?_, ?_⟩
  · intro env q e fuel hq hcls
    have hqi : (initState q).question = q := rfl
    have hnode : request_analyst_node env (initState q) = .error e := by
      unfold request_analyst_node request_analysis
      rw [hqi, if_neg hq, hcls]
    simp only [wrun]
    rw [if_neg (by decide : ¬ WNode.request_analyst = WNode.terminal)]
    simp only [wstep, hnode]
  · intro resp h
    show (if resp.label = "not_finance" then
        Except.ok (⟨"not_finance", some NOT_FINANCE_RESPONSE⟩ : ReqAnalysisResult)
      else Except.ok ⟨"finance", none⟩) = Except.ok ⟨"finance", none⟩
    rw [if_neg h]
  · intro resp h
    show (if resp.label = "not_finance" then
        Except.ok (⟨"not_finance", some NOT_FINANCE_RESPONSE⟩ : ReqAnalysisResult)
      else Except.ok ⟨"finance", none⟩) =
      Except.ok ⟨"not_finance", some NOT_FINANCE_RESPONSE⟩
    rw [if_pos h]

/-- A concrete environment whose classifier chain raises (malformed
structured output). -/
def envClassifyRaises : WEnv where
  classify := fun _ => .error "malformed structured output"
  supervise := fun _ => .ok "financial_analyst"
  analyze := fun _ => .extData [("analysis_type", "single")]
  store := fun _ _ => []
  generateReport := fun _ _ => ⟨some "r"⟩
  evalAnswer := fun _ _ => ⟨"pass", 5, none⟩

/-- Witness for the amended C9: a raising classifier fails the whole run
with the same error, and a concrete off-schema label routes as finance. -/
theorem C9_classification_error_propagation_witness :
    (¬ pyStrip "나스닥이 뭐야?" = "") ∧
    envClassifyRaises.classify "나스닥이 뭐야?" =
      .error "malformed structured output" ∧
    wrun envClassifyRaises 9 .request_analyst (initState "나스닥이 뭐야?") 0 =
      .error "malformed structured output" ∧
    (⟨"banana"⟩ : FinanceGate).label ≠ "not_finance" ∧
    request_analysis (.ok ⟨"banana"⟩) = .ok ⟨"finance", none⟩ :=
  ⟨by decide, rfl,
    C9_classification_error_propagation.1 envClassifyRaises _ _ 8 (by decide) rfl,
    by decide,
    C9_classification_error_propagation.2.1 ⟨"banana"⟩ (by decide)⟩

/-- **C8.** For every query, `k` and threshold, `retrieve` returns exactly
the candidates whose score is ≥ threshold, in the candidate order produced
by the underlying nearest-neighbour search (so descending-score order is
preserved); on the candidate scores `[0.9, 0.5, 0.2]` with threshold `0.3`
exactly the first two survive, in order; and the empty candidate set yields
the empty result (a valid, non-error outcome — the return type has no error
case). -/
theorem C8_retrieve_threshold_filter
    (store : String → Nat → List (Doc × ℚ)) (query : String)
    (top_k : Nat) (th : ℚ) :
    retrieve store query top_k th =
      (store query top_k).filter (fun p => th ≤ p.2) ∧
    (∀ p ∈ retrieve store query top_k th, th ≤ p.2) ∧
    ((store query top_k).Pairwise (fun a b => b.2 ≤ a.2) →
      (retrieve store query top_k th).Pairwise (fun a b => b.2 ≤ a.2)) ∧
    (∀ d1 d2 d3 : Doc,
      retrieve (fun _ _ => [(d1, 9/10), (d2, 5/10), (d3, 2/10)])
          query top_k (3/10) = [(d1, 9/10), (d2, 5/10)]) ∧
    retrieve (fun _ _ => []) query top_k th = [] := by
  refine ⟨rfl, ?_, ?_, ?_, rfl⟩
  · intro p hp
    unfold retrieve at hp
    simp only [List.mem_filter, decide_eq_true_eq] at hp
    exact hp.2
  · intro h
    exact List.Pairwise.sublist (List.filter_sublist _) h
  · intro d1 d2 d3
    simp [retrieve, List.filter]
    norm_num

/-- The concrete candidate store of the C8 scenario. -/
def store3 : String → Nat → List (Doc × ℚ) := fun _ _ =>
  [(⟨"passage a", "doc.pdf", "1"⟩, 9/10),
   (⟨"passage b", "doc.pdf", "2"⟩, 5/10),
   (⟨"passage c", "doc.pdf", "3"⟩, 2/10)]

/-- Witness for C8 on the concrete store: exactly two results, the
descending order preserved, every returned score ≥ 0.3. -/
theorem C8_retrieve_threshold_filter_witness :
    retrieve store3 "듀레이션이 뭔가요?" 3 (3/10) =
      [(⟨"passage a", "doc.pdf", "1"⟩, 9/10),
       (⟨"passage b", "doc.pdf", "2"⟩, 5/10)] ∧
    (retrieve store3 "듀레이션이 뭔가요?" 3 (3/10)).Pairwise
      (fun a b => b.2 ≤ a.2) ∧
    (∀ p ∈ retrieve store3 "듀레이션이 뭔가요?" 3 (3/10), (3:ℚ)/10 ≤ p.2) :=
  ⟨(C8_retrieve_threshold_filter store3 "듀레이션이 뭔가요?" 3 (3/10)).2.2.2.1
      ⟨"passage a", "doc.pdf", "1"⟩ ⟨"passage b", "doc.pdf", "2"⟩
      ⟨"passage c", "doc.pdf", "3"⟩,
    (C8_retrieve_threshold_filter store3 "듀레이션이 뭔가요?" 3 (3/10)).2.2.1
      (by norm_num [store3, List.pairwise_cons]),
    (C8_retrieve_threshold_filter store3 "듀레이션이 뭔가요?" 3 (3/10)).2.1⟩

/-! ## FinancialAnalyst.analyze (src/agents/financial_analyst.py)

The ReAct agent executor is the capability parameter (its `output` string or
an exception); `json.loads` is the parameter `parse`, whose result is a dict
(the happy path), a non-dict JSON value (whose subsequent `.get` attribute
access raises inside the same `try`), or a parse failure.  The pure string
pipeline — code-fence regex, `Final Answer:` split, balanced-brace
extraction, 1000-character truncation — is embedded directly. -/

/-- Python regex `\s` (ASCII part; the keyword/marker texts involved contain
no exotic whitespace). -/
def isPySpace (c : Char) : Bool :=
  c = ' ' || c = '\t' || c = '\n' || c = '\r' || c = '\x0b' || c = '\x0c'

/-- Minimal (lazy) body of `(\{.*?\})\s*` followed by a closing fence:
scanning left to right, the first `}` after which `\s*`-then-"```" matches
closes the capture; otherwise the `}` joins the body. -/
def lazyClose (acc : List Char) : List Char → Option (List Char)
  | [] => none
  | c :: rest =>
    if c = '}' then
      if "```".data.isPrefixOf (rest.dropWhile isPySpace) then
        some ((c :: acc).reverse)
      else lazyClose (c :: acc) rest
    else lazyClose (c :: acc) rest

/-- `re.search(r'```json\s*(\{.*?\})\s*```', output, re.DOTALL)`: try each
occurrence of "```json" left to right; after it, skip whitespace, require a
`{`, and lazily match to the first viable `}`. -/
def extractFencedAux : List Char → Option (List Char)
  | [] => none
  | c :: t =>
    if "```json".data.isPrefixOf (c :: t) then
      match ((c :: t).drop 7).dropWhile isPySpace with
      | '{' :: tail =>
        match lazyClose ['{'] tail with
        | some cap => some cap
        | none => extractFencedAux t
      | _ => extractFencedAux t
    else extractFencedAux t

/-- The captured group of the code-fence regex, if any. -/
def extractFenced (s : String) : Option String :=
  (extractFencedAux s.data).map (fun l => ⟨l⟩)

/-- The remainder after the last occurrence of `tok`
(`output.split(tok)[-1]`), if `tok` occurs at all. -/
def afterLastTokenAux (tok : List Char) : List Char → Option (List Char)
  | [] => none
  | c :: t =>
    match afterLastTokenAux tok t with
    | some r => some r
    | none =>
      if tok.isPrefixOf (c :: t) then some ((c :: t).drop tok.length)
      else none

/-- The brace-counting scan: from just after the opening `{` (count 1),
return the segment up to the matching `}`, or `none` when the braces never
balance (in which case the caller leaves the text unchanged). -/
def braceLoop (count : Nat) (acc : List Char) : List Char → Option (List Char)
  | [] => none
  | c :: rest =>
    if c = '{' then braceLoop (count + 1) (c :: acc) rest
    else if c = '}' then
      if count = 1 then some ((c :: acc).reverse)
      else braceLoop (count - 1) (c :: acc) rest
    else braceLoop count (c :: acc) rest

/-- `start = find('{')` followed by the brace-counting extraction
(`json_part[start_idx:end_idx]`). -/
def braceExtract (l : List Char) : Option (List Char) :=
  match l.dropWhile (fun c => c != '{') with
  | [] => none
  | c :: rest => braceLoop 1 [c] rest

/-- `output if len(output) < 1000 else output[:1000] + "..."`. -/
def truncate1000 (s : String) : String :=
  if s.length < 1000 then s else (⟨s.data.take 1000⟩ : String) ++ "..."

/-- The string handed to `json.loads`: the fenced JSON if the fence regex
matched, else the balanced-brace segment after the last `Final Answer:`
(stripped), else the first balanced-brace segment of the whole output — and
the unchanged output when the respective extraction finds nothing. -/
def extractCandidate (output : String) : String :=
  match extractFenced output with
  | some seg => seg
  | none =>
    if strContains output "Final Answer:" then
      let json_part :=
        pyStrip ⟨(afterLastTokenAux "Final Answer:".data output.data).getD
          output.data⟩
      match braceExtract json_part.data with
      | some seg => ⟨seg⟩
      | none => output
    else
      match braceExtract output.data with
      | some seg => ⟨seg⟩
      | none => output

/-- Result of the `json.loads` capability on the candidate string. -/
inductive JParse (J : Type) where
  | dict (j : J)
  | nonDict
  | fail
deriving Repr, DecidableEq

/-- The analysis record as built by `analyze`'s fallback paths (the happy
path returns the parsed dict itself).  `metrics` is the empty `{}` in both
fallbacks. -/
structure ARecord where
  error : Option String := none
  analysis_type : String
  ticker : String
  company_name : String
  current_price : Nat
  analysis : String
  metrics : List (String × String) := []
  period : String
deriving Repr, DecidableEq

/-- Return value of `FinancialAnalyst.analyze`: the parsed dict or a
record built by a fallback path. -/
inductive AnalyzeOut (J : Type) where
  | parsed (j : J)
  | wrapped (r : ARecord)
deriving Repr, DecidableEq

/-- `FinancialAnalyst.analyze`.  The agent invocation either raises (outer
`except`: error-tagged record, ticker `"ERROR"`), or yields an output
string; JSON parse failure of the extracted candidate wraps the candidate
into a minimal `single` record with ticker `"UNKNOWN"`, truncated at 1000
characters; a non-dict JSON value makes the subsequent `.get` attribute
access raise inside the same `try`, landing in the outer handler (the
Python exception text is abstracted to `"AttributeError"`). -/
def analyze {J : Type} (parse : String → JParse J)
    (agentResult : Except String String) : AnalyzeOut J :=
  match agentResult with
  | .error e =>
    .wrapped { error := some e, analysis_type := "error", ticker := "ERROR",
               company_name := "Error", current_price := 0,
               analysis := "분석 중 오류가 발생했습니다: " ++ e,
               period := "3mo" }
  | .ok output =>
    let candidate := extractCandidate output
    match parse candidate with
    | .dict j => .parsed j
    | .fail =>
      .wrapped { analysis_type := "single", ticker := "UNKNOWN",
                 company_name := "Unknown", current_price := 0,
                 analysis := truncate1000 candidate, period := "3mo" }
    | .nonDict =>
      .wrapped { error := some "AttributeError", analysis_type := "error",
                 ticker := "ERROR", company_name := "Error",
                 current_price := 0,
                 analysis := "분석 중 오류가 발생했습니다: AttributeError",
                 period := "3mo" }

/-- **C6 (counterexample).**  Non-JSON raw text with no code fence and no
`Final Answer:` marker, but containing a balanced-brace segment: the claim
says `analysis` equals the (possibly truncated) raw text, yet `analyze`
stores only the extracted segment `"\x7bmixed\x7d"`, not the raw text. -/
theorem C6_counterexample_brace_segment :
    analyze (J := Unit) (fun _ => JParse.fail)
        (.ok "Stocks look \x7bmixed\x7d today overall.") =
      .wrapped { analysis_type := "single", ticker := "UNKNOWN",
                 company_name := "Unknown", current_price := 0,
                 analysis := "\x7bmixed\x7d", period := "3mo" } ∧
    extractFenced "Stocks look \x7bmixed\x7d today overall." = none ∧
    strContains "Stocks look \x7bmixed\x7d today overall." "Final Answer:" =
      false ∧
    ("\x7bmixed\x7d" : String) ≠
      truncate1000 "Stocks look \x7bmixed\x7d today overall." := by
  refine ⟨rfl, rfl, rfl, by decide⟩

/-- **C6 (amended).**  For raw agent output with no recognizable terminal
marker (fence regex fails, no `Final Answer:`): if the text has no balanced
brace segment and is not JSON, `analyze` returns the `single` record with
ticker `"UNKNOWN"`, numeric field 0, empty metrics and `analysis` the raw
text truncated at 1000 characters; if a balanced-brace segment exists but
fails to parse, the same record carries the (truncated) extracted segment;
and an exception anywhere in the agent loop yields the error-tagged record
with ticker `"ERROR"`, never a raised exception. -/
theorem C6_analyze_fallback {J : Type} (parse : String → JParse J)
    (out : String)
    (hfence : extractFenced out = none)
    (hfa : strContains out "Final Answer:" = false) :
    (braceExtract out.data = none → parse out = .fail →
      analyze parse (.ok out) =
        .wrapped { analysis_type := "single", ticker := "UNKNOWN",
                   company_name := "Unknown", current_price := 0,
                   analysis := truncate1000 out, period := "3mo" }) ∧
    (∀ seg, braceExtract out.data = some seg → parse ⟨seg⟩ = .fail →
      analyze parse (.ok out) =
        .wrapped { analysis_type := "single", ticker := "UNKNOWN",
                   company_name := "Unknown", current_price := 0,
                   analysis := truncate1000 ⟨seg⟩, period := "3mo" }) ∧
    (∀ e, analyze parse (.error e) =
      .wrapped { error := some e, analysis_type := "error", ticker := "ERROR",
                 company_name := "Error", current_price := 0,
                 analysis := "분석 중 오류가 발생했습니다: " ++ e,
                 period := "3mo" }) := by
  have hcand0 : braceExtract out.data = none → extractCandidate out = out := by
    intro hb
    unfold extractCandidate
    rw [hfence, hfa]
    simp [hb]
  have hcand1 : ∀ seg, braceExtract out.data = some seg →
      extractCandidate out = ⟨seg⟩ := by
    intro seg hb
    unfold extractCandidate
    rw [hfence, hfa]
    simp [hb]
  refine ⟨?_, ?_, fun e => rfl⟩
  · intro hb hp
    simp only [analyze]
    rw [hcand0 hb, hp]
  · intro seg hb hp
    simp only [analyze]
    rw [hcand1 seg hb, hp]

/-- Witness for the amended C6: a brace-free non-JSON sentence wraps into
the `UNKNOWN` record with the raw text, and a concrete exception becomes the
`ERROR` record. -/
theorem C6_analyze_fallback_witness :
    extractFenced "The analysis could not be completed." = none ∧
    strContains "The analysis could not be completed." "Final Answer:" =
      false ∧
    braceExtract ("The analysis could not be completed." : String).data =
      none ∧
    analyze (J := Unit) (fun _ => JParse.fail)
        (.ok "The analysis could not be completed.") =
      .wrapped { analysis_type := "single", ticker := "UNKNOWN",
                 company_name := "Unknown", current_price := 0,
                 analysis :=
                   truncate1000 "The analysis could not be completed.",
                 period := "3mo" } ∧
    analyze (J := Unit) (fun _ => JParse.fail) (.error "tool raised") =
      .wrapped { error := some "tool raised", analysis_type := "error",
                 ticker := "ERROR", company_name := "Error",
                 current_price := 0,
                 analysis := "분석 중 오류가 발생했습니다: " ++ "tool raised",
                 period := "3mo" } :=
  ⟨rfl, rfl, rfl,
    (C6_analyze_fallback (J := Unit) (fun _ => JParse.fail)
      "The analysis could not be completed." rfl rfl).1 rfl rfl,
    (C6_analyze_fallback (J := Unit) (fun _ => JParse.fail)
      "The analysis could not be completed." rfl rfl).2.2 "tool raised"⟩

/-! ## ReportGenerator (src/agents/report_generator.py)

`generate_report` is embedded over two capabilities: the bare LLM
(`self.llm.invoke(prompt).content`, may raise — `_generate_report_directly`
catches that itself) and the filtered ReAct agent executor
(`temp_executor.invoke`, may raise — the outer handler builds the synthetic
error report).  The analysis dict is abstracted to the observations the code
makes of it: Python truthiness, `analysis_type`, its `json.dumps` rendering,
and the `stocks[*].ticker` list.  For observability the embedding also
returns the prompts sent directly to the LLM and the tool lists handed to
agent executors.  (The process-wide `_current_analysis_data_json` stash is
omitted: no code in the modelled scope reads it back.) -/

/-- The analysis dict as read by `generate_report`. -/
structure RGData where
  isEmpty : Bool
  analysis_type : Option String
  dump : String
  tickers : List String
deriving Repr, DecidableEq

/-- One `(action, observation)` pair from `intermediate_steps`. -/
structure AgentStep where
  tool : String
  observation : String
deriving Repr, DecidableEq

/-- The dict returned by the agent executor. -/
structure AgentResult where
  output : String
  steps : List AgentStep
deriving Repr, DecidableEq

/-- The ReportGenerator capabilities. -/
structure RGEnv where
  llm : String → Except String String
  agentRun : List String → String → String → Except String AgentResult

/-- Return value of `generate_report`. -/
structure RGResult where
  report : String
  status : String
  charts : List String
  saved_path : Option String
  error : Option String := none
deriving Repr, DecidableEq

def chart_keywords : List String := ["차트", "그래프", "chart", "그려", "시각화"]
def save_keywords : List String := ["저장", "파일", "save", "md", "pdf", "txt"]

/-- Longest prefix of `tok` ending in one of `pats` (the greedy `[^\s]+`
backtracking to the alternative suffixes). -/
def longestPrefixEndingWithAny (pats : List (List Char)) (tok : List Char) :
    Option (List Char) :=
  ((List.range (tok.length + 1)).reverse.find?
    (fun n => pats.any (fun p => p.isSuffixOf (tok.take n)))).map
      (fun n => tok.take n)

/-- First match of `prefixTok[^\s]+suffix`-style path regexes
(`charts/[^\s]+\.png`, `reports/[^\s]+\.(txt|md|pdf)`), scanning occurrence
by occurrence; the non-space token at the occurrence is truncated at the
last viable suffix (greedy backtracking), modulo requiring a nonempty middle
segment. -/
def findPathFrom (prefixTok : List Char) (pats : List (List Char)) :
    List Char → Option (List Char)
  | [] => none
  | c :: t =>
    if prefixTok.isPrefixOf (c :: t) then
      match longestPrefixEndingWithAny pats
          ((c :: t).takeWhile (fun ch => !(isPySpace ch))) with
      | some m => some m
      | none => findPathFrom prefixTok pats t
    else findPathFrom prefixTok pats t

/-- First match of `:\s*(charts/[^\s]+\.png)` (pattern 2 of the chart-path
extraction). -/
def findColonPath (prefixTok : List Char) (pats : List (List Char)) :
    List Char → Option (List Char)
  | [] => none
  | c :: t =>
    if c = ':' then
      let rest := t.dropWhile isPySpace
      if prefixTok.isPrefixOf rest then
        match longestPrefixEndingWithAny pats
            (rest.takeWhile (fun ch => !(isPySpace ch))) with
        | some m => some m
        | none => findColonPath prefixTok pats t
      else findColonPath prefixTok pats t
    else findColonPath prefixTok pats t

/-- The chart/saved-path extraction loop over `intermediate_steps`: chart
tools append de-duplicated `charts/…png` matches (both regex patterns), the
save tool overwrites `saved_path` with its latest `reports/…` match. -/
def extractPaths (steps : List AgentStep) : List String × Option String :=
  steps.foldl
    (fun acc st =>
      if st.tool = "draw_stock_chart" ∨ st.tool = "draw_valuation_radar" then
        let c1 :=
          match findPathFrom "charts/".data [".png".data] st.observation.data with
          | some m =>
            if acc.1.contains (⟨m⟩ : String) then acc.1 else acc.1 ++ [(⟨m⟩ : String)]
          | none => acc.1
        let c2 :=
          match findColonPath "charts/".data [".png".data] st.observation.data with
          | some m => if c1.contains (⟨m⟩ : String) then c1 else c1 ++ [(⟨m⟩ : String)]
          | none => c1
        (c2, acc.2)
      else if st.tool = "save_report_to_file" then
        match findPathFrom "reports/".data
            [".txt".data, ".md".data, ".pdf".data] st.observation.data with
        | some m => (acc.1, some (⟨m⟩ : String))
        | none => acc
      else acc)
    ([], none)

/-- The deterministic single-stock prompt of `_generate_report_directly`
(the `\x7b…\x7d` braces are literal text produced by the `{{…}}` f-string
escapes in the source). -/
def singlePrompt (dump : String) : String :=
  "다음 주식 분석 데이터를 바탕으로 전문적인 마크다운 형식의 보고서를 작성해주세요.\n\n분석 데이터:\n```json\n"
  ++ dump ++
  "\n```\n\n다음 구조로 상세한 보고서를 작성해주세요:\n\n## \x7bcompany_name\x7d (\x7bticker\x7d) 주식 분석 보고서\n\n### 1. 기업 개요\n- 회사명, 티커, 섹터, 산업 정보 정리\n\n### 2. 주가 정보\n- 현재가, 52주 최고/최저, 거래량 등\n\n### 3. 밸류에이션 지표\n- P/E Ratio, 시가총액, 배당수익률 등\n\n### 4. 분석 의견\n- 제공된 analysis 내용을 상세히 설명\n\n### 5. 최신 뉴스 요약\n- news_summary 내용 정리 (있는 경우)\n\n### 6. 애널리스트 추천\n- analyst_recommendation 내용\n\n### 7. 투자 의견\n- 전체 데이터를 종합한 투자 의견 및 리스크 요인\n\n**요구사항:**\n- 최소 300단어 이상\n- 마크다운 형식 사용\n- 구체적인 수치 포함\n- 전문적이고 객관적인 톤\n"

/-- The deterministic comparison prompt of `_generate_report_directly`. -/
def comparisonPrompt (dump : String) (tickers : List String) : String :=
  "다음 주식 비교 분석 데이터를 바탕으로 전문적인 마크다운 형식의 비교 보고서를 작성해주세요.\n\n분석 데이터:\n```json\n"
  ++ dump ++
  "\n```\n\n다음 구조로 상세한 비교 보고서를 작성해주세요:\n\n## 주식 비교 분석 보고서: "
  ++ String.intercalate " vs " tickers ++
  "\n\n### 1. 비교 대상 개요\n- 각 주식의 기본 정보 (회사명, 티커, 섹터, 산업)\n\n### 2. 주가 비교\n- 현재가, 52주 최고/최저 비교\n- 주가 위치 분석\n\n### 3. 밸류에이션 비교\n- P/E Ratio, 시가총액 등 주요 지표 비교\n- 표 형식 권장\n\n### 4. 개별 주식 분석\n- 각 주식의 장단점 상세 분석\n\n### 5. 종합 비교 분석\n- comparison_summary 또는 comparison_analysis 내용 정리\n- 상대적 강점/약점 비교\n\n### 6. 투자 추천\n- 추천 주식 및 이유\n- 리스크 분석\n- 투자 전략 제안\n\n**요구사항:**\n- 최소 400단어 이상\n- 마크다운 형식 사용\n- 구체적인 수치 비교\n- 전문적이고 객관적인 톤\n- 비교 표 사용 권장\n"

/-- The fallback text of `_generate_report_directly`'s own exception
handler. -/
def directErrorText (e dump : String) : String :=
  "# 보고서 생성 오류\n\n보고서 생성 중 오류가 발생했습니다: " ++ e ++
  "\n\n## 분석 데이터\n```json\n" ++ dump ++ "\n```\n\n⚠️ 다시 시도해주세요.\n"

/-- The synthetic error report of `generate_report`'s outer handler. -/
def errorReportText (e dump : String) : String :=
  "# Report Generation Error\n\nAn error occurred: " ++ e ++
  "\n\n## Analysis Data\n```json\n" ++ dump ++
  "\n```\n\n⚠️ Supervisor에게 재시도를 요청하거나 데이터를 확인해주세요."

def emptyDataMsg : String := "❌ 분석 데이터가 없습니다."
def unsupportedTypeMsg (t : String) : String :=
  "❌ 지원하지 않는 분석 타입입니다: " ++ t

/-- `wants_charts = any(keyword in request_lower for keyword in chart_keywords)`. -/
def wantsCharts (user_request : String) : Bool :=
  chart_keywords.any (fun k => strContains (lowerStr user_request) k)

/-- `wants_save = any(keyword in request_lower for keyword in save_keywords)`. -/
def wantsSave (user_request : String) : Bool :=
  save_keywords.any (fun k => strContains (lowerStr user_request) k)

/-- `ReportGenerator._generate_report_directly`: the tag-selected prompt is
sent to the bare LLM (no agent); an LLM exception is caught locally into a
fallback text; an unknown tag returns the unsupported-type message without
any LLM call.  Also returns the list of prompts actually sent. -/
def generate_report_directly (env : RGEnv) (data : RGData) :
    String × List String :=
  if data.analysis_type.getD "single" = "single" then
    match env.llm (singlePrompt data.dump) with
    | .ok resp => (pyStrip resp, [singlePrompt data.dump])
    | .error e => (directErrorText e data.dump, [singlePrompt data.dump])
  else if data.analysis_type.getD "single" = "comparison" then
    match env.llm (comparisonPrompt data.dump data.tickers) with
    | .ok resp => (pyStrip resp, [comparisonPrompt data.dump data.tickers])
    | .error e =>
      (directErrorText e data.dump, [comparisonPrompt data.dump data.tickers])
  else
    (unsupportedTypeMsg (data.analysis_type.getD "single"), [])

/-- `ReportGenerator.generate_report`.  Returns
`(result, direct-LLM prompts, tool lists handed to agent executors)`. -/
def generate_report (env : RGEnv) (user_request : String) (data : RGData) :
    RGResult × List String × List (List String) :=
  if data.isEmpty then
    ({ report := emptyDataMsg, status := "error", charts := [],
       saved_path := none }, [], [])
  else if ((if wantsCharts user_request then
        ["draw_stock_chart", "draw_valuation_radar"] else []) ++
      (if wantsSave user_request then ["save_report_to_file"] else [])) = []
  then
    ({ report := (generate_report_directly env data).1, status := "success",
       charts := [], saved_path := none },
     (generate_report_directly env data).2, [])
  else
    match env.agentRun
        ((if wantsCharts user_request then
            ["draw_stock_chart", "draw_valuation_radar"] else []) ++
          (if wantsSave user_request then ["save_report_to_file"] else []))
        user_request data.dump with
    | .ok result =>
      ({ report := result.output, status := "success",
         charts := (extractPaths result.steps).1,
         saved_path := (extractPaths result.steps).2 }, [],
       [(if wantsCharts user_request then
           ["draw_stock_chart", "draw_valuation_radar"] else []) ++
        (if wantsSave user_request then ["save_report_to_file"] else [])])
    | .error e =>
      ({ report := errorReportText e data.dump, status := "error",
         charts := [], saved_path := none, error := some e }, [],
       [(if wantsCharts user_request then
           ["draw_stock_chart", "draw_valuation_radar"] else []) ++
        (if wantsSave user_request then ["save_report_to_file"] else [])])


/-- The result dict of `generate_report`. -/
def rgResult (env : RGEnv) (user_request : String) (data : RGData) : RGResult :=
  (generate_report env user_request data).1

/-- The prompts `generate_report` sent directly to the LLM. -/
def rgPrompts (env : RGEnv) (user_request : String) (data : RGData) :
    List String :=
  (generate_report env user_request data).2.1

/-- The tool lists `generate_report` handed to agent executors. -/
def rgAgentCalls (env : RGEnv) (user_request : String) (data : RGData) :
    List (List String) :=
  (generate_report env user_request data).2.2

lemma rgAgentCalls_cases (env : RGEnv) (user_request : String) (data : RGData)
    (hne : data.isEmpty = false) :
    rgAgentCalls env user_request data = [] ∨
    rgAgentCalls env user_request data =
      [(if wantsCharts user_request then
          ["draw_stock_chart", "draw_valuation_radar"] else []) ++
       (if wantsSave user_request then ["save_report_to_file"] else [])] := by
  unfold rgAgentCalls generate_report
  by_cases hwc : wantsCharts user_request = true
  · by_cases hws : wantsSave user_request = true
    · right
      simp only [hne, hwc, hws, Bool.false_eq_true, if_false, if_true,
        eq_self_iff_true]
      simp only [List.cons_append, List.nil_append,
        reduceCtorEq, if_false]
      rcases env.agentRun _ user_request data.dump with e | r <;> rfl
    · right
      rw [Bool.not_eq_true] at hws
      simp only [hne, hwc, hws, Bool.false_eq_true, if_false, if_true,
        eq_self_iff_true]
      simp only [List.append_nil, reduceCtorEq, if_false]
      rcases env.agentRun _ user_request data.dump with e | r <;> rfl
  · rw [Bool.not_eq_true] at hwc
    by_cases hws : wantsSave user_request = true
    · right
      simp only [hne, hwc, hws, Bool.false_eq_true, if_false, if_true,
        eq_self_iff_true]
      simp only [List.nil_append, reduceCtorEq, if_false]
      rcases env.agentRun _ user_request data.dump with e | r <;> rfl
    · left
      rw [Bool.not_eq_true] at hws
      simp only [hne, hwc, hws, Bool.false_eq_true, if_false]
      simp only [List.append_nil, eq_self_iff_true, if_true]

lemma generate_report_direct_eq (env : RGEnv) (user_request : String)
    (data : RGData) (hne : data.isEmpty = false)
    (hwc : wantsCharts user_request = false)
    (hws : wantsSave user_request = false) :
    generate_report env user_request data =
      ({ report := (generate_report_directly env data).1, status := "success",
         charts := [], saved_path := none },
       (generate_report_directly env data).2, []) := by
  unfold generate_report
  simp only [hne, hwc, hws, Bool.false_eq_true, if_false]
  simp only [List.append_nil, eq_self_iff_true, if_true]

lemma generate_report_directly_single (env : RGEnv) (data : RGData)
    (htag : data.analysis_type.getD "single" = "single") :
    (generate_report_directly env data).2 = [singlePrompt data.dump] := by
  unfold generate_report_directly
  rw [htag, if_pos rfl]
  rcases env.llm (singlePrompt data.dump) with e | r <;> rfl

lemma generate_report_directly_comparison (env : RGEnv) (data : RGData)
    (htag : data.analysis_type.getD "single" = "comparison") :
    (generate_report_directly env data).2 =
      [comparisonPrompt data.dump data.tickers] := by
  unfold generate_report_directly
  rw [htag, if_neg (by decide : ¬("comparison" : String) = "single"),
    if_pos rfl]
  rcases env.llm (comparisonPrompt data.dump data.tickers) with e | r <;> rfl

/-- **C7.** For every request and non-empty analysis record: every tool list
handed to an agent executor contains a chart tool only if the request
matches the chart keyword set, and the save tool only if it matches the save
keyword set; and when neither keyword set matches, no agent executor runs at
all — the generation capability is called directly with the deterministic
prompt selected by the record's tag (`single` vs `comparison`) — and the
result has `charts = []` and `saved_path = none` with status `success`. -/
theorem C7_report_tool_gating (env : RGEnv) (user_request : String)
    (data : RGData) (hne : data.isEmpty = false) :
    (∀ ts ∈ rgAgentCalls env user_request data,
      ("draw_stock_chart" ∈ ts ∨ "draw_valuation_radar" ∈ ts) →
        wantsCharts user_request = true) ∧
    (∀ ts ∈ rgAgentCalls env user_request data,
      "save_report_to_file" ∈ ts → wantsSave user_request = true) ∧
    (wantsCharts user_request = false → wantsSave user_request = false →
      rgAgentCalls env user_request data = [] ∧
      (rgResult env user_request data).charts = [] ∧
      (rgResult env user_request data).saved_path = none ∧
      (rgResult env user_request data).status = "success" ∧
      (rgResult env user_request data).report =
        (generate_report_directly env data).1 ∧
      rgPrompts env user_request data = (generate_report_directly env data).2 ∧
      (data.analysis_type.getD "single" = "single" →
        rgPrompts env user_request data = [singlePrompt data.dump]) ∧
      (data.analysis_type.getD "single" = "comparison" →
        rgPrompts env user_request data =
          [comparisonPrompt data.dump data.tickers])) := by
  refine ⟨?_, ?_, ?_⟩
  · intro ts hts hmem
    by_cases hwc : wantsCharts user_request = true
    · exact hwc
    · exfalso
      rw [Bool.not_eq_true] at hwc
      rcases rgAgentCalls_cases env user_request data hne with h | h
      · rw [h] at hts
        exact absurd hts (List.not_mem_nil ts)
      · rw [h, hwc] at hts
        simp only [if_false, List.nil_append, List.mem_singleton] at hts
        subst hts
        rcases hmem with hmem | hmem <;>
          split at hmem <;> simp_all
  · intro ts hts hmem
    by_cases hws : wantsSave user_request = true
    · exact hws
    · exfalso
      rw [Bool.not_eq_true] at hws
      rcases rgAgentCalls_cases env user_request data hne with h | h
      · rw [h] at hts
        exact absurd hts (List.not_mem_nil ts)
      · rw [h, hws] at hts
        simp only [if_false, List.append_nil, List.mem_singleton] at hts
        subst hts
        split at hmem <;> simp_all
  · intro hwc hws
    have h := generate_report_direct_eq env user_request data hne hwc hws
    refine ⟨?_, ?_, ?_, ?_, ?_, ?_, ?_, ?_⟩
    · rw [rgAgentCalls, h]
    · rw [rgResult, h]
    · rw [rgResult, h]
    · rw [rgResult, h]
    · rw [rgResult, h]
    · rw [rgPrompts, h]
    · intro htag
      rw [rgPrompts, h]
      exact generate_report_directly_single env data htag
    · intro htag
      rw [rgPrompts, h]
      exact generate_report_directly_comparison env data htag

/-- A concrete ReportGenerator environment for the witnesses. -/
def envRG : RGEnv where
  llm := fun _ => .ok "본 보고서는 테스트용 요약 보고서입니다."
  agentRun := fun _ _ _ => .ok { output := "agent report", steps := [] }

/-- Witness for C7: the chart/save-free request "애플 주식 분석해줘" on a
non-empty `single` record takes the direct path with the single-stock
prompt, no agent call, no charts, no saved path. -/
theorem C7_report_tool_gating_witness :
    wantsCharts "애플 주식 분석해줘" = false ∧
    wantsSave "애플 주식 분석해줘" = false ∧
    (⟨false, some "single", "analysis-json", []⟩ : RGData).isEmpty = false ∧
    rgAgentCalls envRG "애플 주식 분석해줘"
      ⟨false, some "single", "analysis-json", []⟩ = [] ∧
    (rgResult envRG "애플 주식 분석해줘"
      ⟨false, some "single", "analysis-json", []⟩).charts = [] ∧
    (rgResult envRG "애플 주식 분석해줘"
      ⟨false, some "single", "analysis-json", []⟩).saved_path = none ∧
    rgPrompts envRG "애플 주식 분석해줘"
      ⟨false, some "single", "analysis-json", []⟩ =
      [singlePrompt "analysis-json"] := by
  have h := C7_report_tool_gating envRG "애플 주식 분석해줘"
    ⟨false, some "single", "analysis-json", []⟩ rfl
  have h3 := h.2.2 (by decide) (by decide)
  exact ⟨by decide, by decide, rfl, h3.1, h3.2.1, h3.2.2.1,
    h3.2.2.2.2.2.2.1 rfl⟩

/-- **C10.** An empty/absent analysis record makes `generate_report` return
the fixed error result — non-empty fixed message, status `error`, no
charts, no saved path — without any direct LLM prompt and without any agent
executor (hence no chart/save tool) being invoked. -/
theorem C10_empty_data_short_circuit (env : RGEnv) (user_request : String)
    (data : RGData) (h : data.isEmpty = true) :
    generate_report env user_request data =
      ({ report := emptyDataMsg, status := "error", charts := [],
         saved_path := none }, [], []) ∧
    emptyDataMsg ≠ "" := by
  constructor
  · unfold generate_report
    rw [if_pos h]
  · decide

/-- Witness for C10 at a concrete empty record. -/
theorem C10_empty_data_short_circuit_witness :
    (⟨true, none, "\x7b\x7d", []⟩ : RGData).isEmpty = true ∧
    generate_report envRG "애플 주식 분석해서 저장해줘"
        ⟨true, none, "\x7b\x7d", []⟩ =
      ({ report := emptyDataMsg, status := "error", charts := [],
         saved_path := none }, [], []) ∧
    emptyDataMsg ≠ "" :=
  ⟨rfl,
    (C10_empty_data_short_circuit envRG "애플 주식 분석해서 저장해줘"
      ⟨true, none, "\x7b\x7d", []⟩ rfl).1,
    (C10_empty_data_short_circuit envRG "애플 주식 분석해서 저장해줘"
      ⟨true, none, "\x7b\x7d", []⟩ rfl).2⟩
